import Mathlib

/-!
# Verification of the ACP checkout protocol core

Shallow embedding, in Lean 4, of the protocol core of the `acp-infra`
repository, together with theorems settling the frozen claims about it.

Embedded source files:
* `src/acp_framework/seller.py` — the idempotency ledger
  (`_idempotency_lookup`, `_idempotency_store`) and the shared shape of the
  five checkout endpoint handlers (`create_checkout_session`,
  `update_checkout_session`, `complete_checkout_session`,
  `cancel_checkout_session`).
* `src/services/seller/main.py` — the `WayfairSellerAdapter` pricing engine
  (`_build_session`, `_get_fulfillment_options`) and state machine
  (`on_create_session`, `on_update_session`, `on_complete_session`).
* `src/services/psp/main.py` — the delegate-payment precondition checks of
  `create_delegated_payment`.

Modelling conventions:
* Monetary amounts are integer minor-currency units, modelled as `Nat`
  (the source never produces negative amounts on these paths).
* `TAX_RATE = 0.08` is a Python float; `math.ceil(base * TAX_RATE)` is
  modelled as the exact ceiling `(8 * base + 99) / 100` over rationals
  (`Nat` ceiling division).  For every product of an integer with the IEEE
  double nearest to `0.08` that arises at realistic magnitudes this agrees
  with the float computation, because the exact value of `8·n/100` is never
  closer than `1/25` to a different integer when it is not itself an
  integer, and is computed exactly by the float path when it is.
* The SHA-256 canonical payload hash (`_payload_hash`) is treated as an
  opaque `String` input to the handlers: the claims are stated in terms of
  hash equality/inequality, exactly as the source compares stored hashes.
  No injectivity of the hash is assumed.
* Addresses and buyers are carried around by the embedded code but never
  inspected (only their presence matters), so they are modelled as opaque
  `String`s.
* The Python module-level dict `_IDEMPOTENCY_STORE` is modelled as an
  association list with first-match lookup; dict assignment is modelled by
  prepending, which has the same observable `get` semantics.
-/

namespace ACP

/-! ## Error shape (`acp_framework/seller.py`, `ACPSellerError`) -/

/-- The ACP structured error payload (`acp_framework.models.ACPError`). -/
structure ACPError where
  type : String
  code : String
  message : String
  param : Option String
deriving DecidableEq, Repr

/-- Embeds `ACPSellerError` from `acp_framework/seller.py`: an HTTP status code plus
the structured error body raised inside adapter hooks. -/
structure ACPSellerError where
  status_code : Nat
  error : ACPError
deriving DecidableEq, Repr

/-- A response body is either a successful payload dump or an error dump
(in the source both are JSON dicts inside a `JSONResponse`). -/
inductive RespBody (β : Type)
  | payload (b : β)
  | err (e : ACPError)
deriving DecidableEq, Repr

/-- An HTTP response as the handlers produce it: status code plus body. -/
structure HttpResponse (β : Type) where
  status_code : Nat
  body : RespBody β
deriving DecidableEq, Repr

/-! ## Idempotency ledger (`acp_framework/seller.py` lines 114, 180–216) -/

/-- One entry of `_IDEMPOTENCY_STORE`: the dict stored per
`(route, idempotency_key)` in `_idempotency_store`. -/
structure IdemRecord (β : Type) where
  request_id : Option String
  payload_hash : String
  status_code : Nat
  response_body : RespBody β
deriving DecidableEq, Repr

/-- The module-level dict `_IDEMPOTENCY_STORE`, keyed by
`(route, idempotency_key)`.  Modelled as an association list with
first-match lookup. -/
def IdemStore (β : Type) : Type := List ((String × String) × IdemRecord β)

instance (β : Type) [DecidableEq β] : DecidableEq (IdemStore β) :=
  inferInstanceAs (DecidableEq (List _))

/-- Dict read: `_IDEMPOTENCY_STORE.get(key)`. -/
def storeGet {β : Type} (store : IdemStore β) (k : String × String) :
    Option (IdemRecord β) :=
  (store.find? fun e => decide (e.1 = k)).map (·.2)

/-- Dict write: `_IDEMPOTENCY_STORE[key] = record`.  Prepending gives the
same observable `storeGet` semantics as dict assignment. -/
def storeSet {β : Type} (store : IdemStore β) (k : String × String)
    (r : IdemRecord β) : IdemStore β :=
  (k, r) :: store

/-- Embeds `_idempotency_lookup(route, idempotency_key, payload_hash)` from
`acp_framework/seller.py` lines 180–198.  Returns `none` on a miss (no key
supplied, or no record stored), a 409 `request_not_idempotent` error
response on a payload-hash conflict, and the stored response on a replay. -/
def idempotency_lookup {β : Type} (store : IdemStore β) (route : String)
    (idempotency_key : Option String) (payload_hash : String) :
    Option (HttpResponse β) :=
  match idempotency_key with
  | none => none
  | some k =>
    match storeGet store (route, k) with
    | none => none
    | some existing =>
      if existing.payload_hash ≠ payload_hash then
        some ⟨409, .err ⟨"invalid_request", "request_not_idempotent",
          "Idempotency key reused with different request payload",
          some "$.headers.Idempotency-Key"⟩⟩
      else
        some ⟨existing.status_code, existing.response_body⟩

/-- Embeds `_idempotency_store(route, idempotency_key, request_id, payload_hash,
status_code, response_body)` from `acp_framework/seller.py` lines 201–216.
A no-op when no idempotency key was supplied. -/
def idempotency_store {β : Type} (store : IdemStore β) (route : String)
    (idempotency_key : Option String) (request_id : Option String)
    (payload_hash : String) (status_code : Nat) (response_body : RespBody β) :
    IdemStore β :=
  match idempotency_key with
  | none => store
  | some k =>
    storeSet store (route, k) ⟨request_id, payload_hash, status_code, response_body⟩

/-- The shared body of the four mutating checkout handlers
(`create_checkout_session` lines 254–274, `update_checkout_session`,
`complete_checkout_session`, `cancel_checkout_session` in
`acp_framework/seller.py`), after authentication: compute the payload hash,
consult `_idempotency_lookup` (short-circuiting on replay/conflict), else run
the adapter operation; on success store the outcome via `_idempotency_store`,
on `ACPSellerError` return the error response — the `except` branch performs
no store call.  `op` is the adapter call's outcome; the returned `Bool`
records whether the handler reached the adapter call (`false` on the
short-circuit path). -/
def endpoint_step {β : Type} (store : IdemStore β) (route : String)
    (idempotency_key : Option String) (request_id : Option String)
    (payload_hash : String) (success_status : Nat)
    (op : Except ACPSellerError β) :
    HttpResponse β × IdemStore β × Bool :=
  match idempotency_lookup store route idempotency_key payload_hash with
  | some resp => (resp, store, false)
  | none =>
    match op with
    | .ok b =>
        (⟨success_status, .payload b⟩,
         idempotency_store store route idempotency_key request_id payload_hash
           success_status (.payload b),
         true)
    | .error e =>
        (⟨e.status_code, .err e.error⟩, store, true)

/-! ## Pricing engine and state machine
(`src/services/seller/main.py`, `WayfairSellerAdapter`) -/

/-- Embeds `TAX_RATE = 0.08`: `math.ceil(base * TAX_RATE)` as exact ceiling of
`8 * base / 100` (Nat ceiling division; see module comment for the float
caveat). -/
def ceilTax (base : Nat) : Nat := (8 * base + 99) / 100

/-- A catalog row (`ProductRow`), restricted to the fields the checkout
path reads: id (primary key), `price_cents`, `in_stock`. -/
structure Product where
  id : String
  price_cents : Nat
  in_stock : Bool
deriving DecidableEq, Repr

/-- Embeds `db.get(ProductRow, id)`: primary-key lookup in the catalog. -/
def findProduct (catalog : List Product) (pid : String) : Option Product :=
  catalog.find? fun p => decide (p.id = pid)

/-- One requested item (`acp_framework.models.Item`): product id plus
quantity. -/
structure ItemReq where
  id : String
  quantity : Nat
deriving DecidableEq, Repr

/-- A computed line item (`acp_framework.models.LineItem` as populated by
`_build_session` lines 341–351): `item_id`/`quantity` are the `item` dict. -/
structure LineItem where
  id : String
  item_id : String
  quantity : Nat
  base_amount : Nat
  discount : Nat
  subtotal : Nat
  tax : Nat
  total : Nat
deriving DecidableEq, Repr

/-- A fulfillment option (`FulfillmentOptionShipping`), restricted to the
fields the checkout path reads. -/
structure FulfillmentOption where
  id : String
  title : String
  subtotal : Nat
  tax : Nat
  total : Nat
deriving DecidableEq, Repr

/-- Embeds `WayfairSellerAdapter._get_fulfillment_options` (lines 280–302). -/
def get_fulfillment_options : List FulfillmentOption :=
  [⟨"ship_std", "Standard Shipping", 799, ceilTax 799, 799 + ceilTax 799⟩,
   ⟨"ship_exp", "Express Shipping", 1499, ceilTax 1499, 1499 + ceilTax 1499⟩]

/-- The 409 `out_of_stock` error raised by `_build_session`. -/
def outOfStockError (message : String) : ACPSellerError :=
  ⟨409, ⟨"invalid_request", "out_of_stock", message, some "$.items"⟩⟩

/-- The product-lookup/pricing loop of `_build_session` (lines 317–352):
walks the requested items in order; fails `out_of_stock` (409) at the first
item whose product is absent or not in stock; otherwise returns the line
items together with the accumulated `subtotal` (sum of base amounts). -/
def buildLineItems (catalog : List Product) :
    List ItemReq → Except ACPSellerError (List LineItem × Nat)
  | [] => .ok ([], 0)
  | item :: rest =>
    match findProduct catalog item.id with
    | none =>
        .error (outOfStockError ("Product " ++ item.id ++ " is not available"))
    | some product =>
      if product.in_stock = false then
        .error (outOfStockError ("Product " ++ item.id ++ " is out of stock"))
      else
        match buildLineItems catalog rest with
        | .error e => .error e
        | .ok (line_items, subtotal) =>
          let base := product.price_cents * item.quantity
          let tax := ceilTax base
          .ok ({ id := "li_" ++ product.id, item_id := product.id,
                 quantity := item.quantity, base_amount := base, discount := 0,
                 subtotal := base, tax := tax, total := base + tax } :: line_items,
               base + subtotal)

/-- The fulfillment-cost computation of `_build_session` (lines 356–363):
zero unless a selected option id matches one of the offered options, in
which case that option's `total`. -/
def fulfillmentTotal (fulfillment_option_id : Option String) : Nat :=
  match fulfillment_option_id with
  | none => 0
  | some oid =>
    match get_fulfillment_options.find? (fun o => decide (o.id = oid)) with
    | none => 0
    | some opt => opt.total

/-- Embeds `acp_framework.models.CheckoutStatus`. -/
inductive CheckoutStatus
  | not_ready_for_payment
  | ready_for_payment
  | completed
  | canceled
deriving DecidableEq, Repr

/-- The `.value` string of each `CheckoutStatus` member (the DB stores the
string). -/
def CheckoutStatus.value : CheckoutStatus → String
  | .not_ready_for_payment => "not_ready_for_payment"
  | .ready_for_payment => "ready_for_payment"
  | .completed => "completed"
  | .canceled => "canceled"

/-- Embeds `acp_framework.models.TotalType`. -/
inductive TotalType
  | items_base_amount
  | subtotal
  | tax
  | fulfillment
  | discount
  | total
deriving DecidableEq, Repr

/-- A totals entry (`acp_framework.models.Total`). -/
structure Total where
  type : TotalType
  display_text : String
  amount : Nat
deriving DecidableEq, Repr

/-- Embeds `acp_framework.models.CheckoutSession`, restricted to the fields the
embedded logic reads or the claims mention.  Constant fields
(`payment_provider`, `capabilities`, `fulfillment_options`, `messages`,
`links`, `currency = "usd"`) that the logic never branches on are omitted
or fixed.  Buyers and addresses are opaque (only presence matters). -/
structure CheckoutSession where
  id : String
  buyer : Option String
  status : CheckoutStatus
  currency : String
  line_items : List LineItem
  fulfillment_address : Option String
  fulfillment_option_id : Option String
  totals : List Total
deriving DecidableEq, Repr

/-- Embeds `WayfairSellerAdapter._build_session` (lines 304–399): resolve and price
the items, compute session-level tax/fulfillment/grand total, and assemble
the ordered totals list (fulfillment entry only when its amount is truthy,
i.e. nonzero; the adapter never produces a discount entry). -/
def build_session (catalog : List Product) (session_id : String)
    (items : List ItemReq) (status : CheckoutStatus) (buyer : Option String)
    (fulfillment_address : Option String)
    (fulfillment_option_id : Option String) :
    Except ACPSellerError CheckoutSession :=
  match buildLineItems catalog items with
  | .error e => .error e
  | .ok (line_items, subtotal) =>
    let tax_total := ceilTax subtotal
    let fulfillment_total := fulfillmentTotal fulfillment_option_id
    let grand_total := subtotal + tax_total + fulfillment_total
    let totals : List Total :=
      [⟨.items_base_amount, "Item(s) total", subtotal⟩,
       ⟨.subtotal, "Subtotal", subtotal⟩,
       ⟨.tax, "Tax", tax_total⟩]
      ++ (if fulfillment_total ≠ 0 then
            [⟨.fulfillment, "Shipping", fulfillment_total⟩] else [])
      ++ [⟨.total, "Total", grand_total⟩]
    .ok { id := session_id, buyer := buyer, status := status,
          currency := "usd", line_items := line_items,
          fulfillment_address := fulfillment_address,
          fulfillment_option_id := fulfillment_option_id, totals := totals }

/-- Embeds `acp_framework.models.CheckoutSessionCreateRequest` (buyer/address
opaque). -/
structure CheckoutSessionCreateRequest where
  buyer : Option String
  items : List ItemReq
  fulfillment_address : Option String
deriving DecidableEq, Repr

/-- Embeds `WayfairSellerAdapter.on_create_session` (lines 401–438): status is
`READY_FOR_PAYMENT` iff a fulfillment address was supplied, else
`NOT_READY_FOR_PAYMENT`; no fulfillment option can be selected at create
time.  The generated session id is a parameter (a UUID in the source);
persistence of the row is the caller's concern here. -/
def on_create_session (catalog : List Product) (session_id : String)
    (request : CheckoutSessionCreateRequest) :
    Except ACPSellerError CheckoutSession :=
  let has_address := request.fulfillment_address.isSome
  let status := if has_address then CheckoutStatus.ready_for_payment
                else CheckoutStatus.not_ready_for_payment
  build_session catalog session_id request.items status request.buyer
    request.fulfillment_address none

/-- The persisted session row (`services/seller/database.py`
`CheckoutSessionRow`), restricted to the fields the state machine reads:
`status` is stored as the enum's value string. -/
structure CheckoutSessionRow where
  id : String
  status : String
  buyer : Option String
  items : List ItemReq
  fulfillment_address : Option String
  fulfillment_option_id : Option String
  session_data : CheckoutSession
deriving DecidableEq, Repr

/-- Embeds `acp_framework.models.CheckoutSessionUpdateRequest`. -/
structure CheckoutSessionUpdateRequest where
  buyer : Option String
  items : Option (List ItemReq)
  fulfillment_address : Option String
  fulfillment_option_id : Option String
deriving DecidableEq, Repr

/-- The request-or-existing item list of `on_update_session` lines 460–462:
`request.items if request.items else row.items` — Python truthiness means
both `None` and an empty request list fall back to the stored items. -/
def mergedItems (request : CheckoutSessionUpdateRequest)
    (row : CheckoutSessionRow) : List ItemReq :=
  match request.items with
  | some l => if l = [] then row.items else l
  | none => row.items

/-- The request-or-existing fulfillment address of `on_update_session`
lines 463–467. -/
def mergedAddress (request : CheckoutSessionUpdateRequest)
    (row : CheckoutSessionRow) : Option String :=
  request.fulfillment_address.orElse fun _ => row.fulfillment_address

/-- The request-or-existing fulfillment option id of `on_update_session`
line 468: `request.fulfillment_option_id or row.fulfillment_option_id`.
Python `or` falls through on every falsy value, so both `None` and the
empty string in the request fall back to the stored value (and the result
may itself be an empty string only if the stored value is). -/
def mergedOptionId (request : CheckoutSessionUpdateRequest)
    (row : CheckoutSessionRow) : Option String :=
  match request.fulfillment_option_id with
  | some s => if s = "" then row.fulfillment_option_id else some s
  | none => row.fulfillment_option_id

/-- The request-or-existing buyer of `on_update_session` line 469. -/
def mergedBuyer (request : CheckoutSessionUpdateRequest)
    (row : CheckoutSessionRow) : Option String :=
  request.buyer.orElse fun _ => row.buyer

/-- The status computation of `on_update_session` lines 471–478:
`READY_FOR_PAYMENT` iff both a fulfillment address and a fulfillment-option
selection are present after merging, else `NOT_READY_FOR_PAYMENT`. -/
def updateStatus (request : CheckoutSessionUpdateRequest)
    (row : CheckoutSessionRow) : CheckoutStatus :=
  if (mergedAddress request row).isSome && (mergedOptionId request row).isSome
  then CheckoutStatus.ready_for_payment
  else CheckoutStatus.not_ready_for_payment

/-- Embeds `WayfairSellerAdapter.on_update_session` (lines 447–497): 404
`session_not_found` when the row is absent; 409 `session_terminal` when the
stored status is `completed`/`canceled`; otherwise merge request-or-existing
values, derive the status, rebuild the session and persist the updated row.
Returns the response session together with the updated row. -/
def on_update_session (catalog : List Product)
    (row? : Option CheckoutSessionRow)
    (request : CheckoutSessionUpdateRequest) :
    Except ACPSellerError (CheckoutSession × CheckoutSessionRow) :=
  match row? with
  | none =>
      .error ⟨404, ⟨"not_found", "session_not_found", "Session not found", none⟩⟩
  | some row =>
    if row.status = "completed" ∨ row.status = "canceled" then
      .error ⟨409, ⟨"conflict", "session_terminal",
        "Session is already terminal", none⟩⟩
    else
      match build_session catalog row.id (mergedItems request row)
          (updateStatus request row) (mergedBuyer request row)
          (mergedAddress request row) (mergedOptionId request row) with
      | .error e => .error e
      | .ok session =>
          .ok (session,
               { row with
                 status := session.status.value
                 items := mergedItems request row
                 buyer := mergedBuyer request row
                 fulfillment_address := mergedAddress request row
                 fulfillment_option_id := mergedOptionId request row
                 session_data := session })

/-- The persisted order row (`services/seller/database.py` `OrderRow`) as
populated by `on_complete_session` lines 533–541, merged with the `Order`
returned to the caller (same id and session reference). -/
structure Order where
  id : String
  checkout_session_id : String
  payment_token : String
  total_cents : Nat
  status : String
deriving DecidableEq, Repr

/-- The seller service's shared mutable state relevant to `complete`:
the checkout-session table and the order table. -/
structure SellerState where
  sessions : List CheckoutSessionRow
  orders : List Order
deriving DecidableEq, Repr

/-- Embeds `db.get(CheckoutSessionRow, session_id)`. -/
def getSessionRow (st : SellerState) (session_id : String) :
    Option CheckoutSessionRow :=
  st.sessions.find? fun r => decide (r.id = session_id)

/-- Persist a mutated row (the ORM updates the row in place; modelled as
replacing every row with the same id). -/
def setSessionRow (st : SellerState) (row : CheckoutSessionRow) : SellerState :=
  { st with sessions := st.sessions.map fun r => if r.id = row.id then row else r }

/-- The grand-total extraction of `on_complete_session` lines 527–531:
first totals entry of kind `total`, defaulting to 0. -/
def grandTotalOf (s : CheckoutSession) : Nat :=
  match s.totals.find? (fun t => decide (t.type = TotalType.total)) with
  | some t => t.amount
  | none => 0

/-- Embeds `WayfairSellerAdapter.on_complete_session` (lines 499–578): 404 when the
session is absent; 409 `not_ready` unless the stored status is exactly
`"ready_for_payment"`; 402 `payment_declined` when the payment token is the
decline sentinel `"decline_token"` — all three raised before any mutation,
so the state is returned unchanged.  On success: one `OrderRow` is added
with the session's grand total, the row's status becomes `"completed"`, and
the completed session plus order are returned.  The generated order id is a
parameter (a UUID in the source); webhook emission is fire-and-forget and
not modelled. -/
def on_complete_session (st : SellerState) (session_id : String)
    (order_id : String) (payment_token : String) :
    Except ACPSellerError (CheckoutSession × Order) × SellerState :=
  match getSessionRow st session_id with
  | none =>
      (.error ⟨404, ⟨"not_found", "session_not_found", "Session not found", none⟩⟩,
       st)
  | some row =>
    if row.status ≠ "ready_for_payment" then
      (.error ⟨409, ⟨"conflict", "not_ready",
        "Session is '" ++ row.status ++ "', must be 'ready_for_payment'",
        none⟩⟩, st)
    else if payment_token = "decline_token" then
      (.error ⟨402, ⟨"invalid_request", "payment_declined",
        "Payment was declined by issuer", some "$.payment_data.token"⟩⟩, st)
    else
      let grand_total := grandTotalOf row.session_data
      let order : Order :=
        ⟨order_id, session_id, payment_token, grand_total, "created"⟩
      let session := { row.session_data with status := CheckoutStatus.completed }
      let row' := { row with status := "completed", session_data := session }
      let st1 := setSessionRow st row'
      (.ok (session, order), { st1 with orders := st1.orders ++ [order] })

/-! ## Delegated payment preconditions (`src/services/psp/main.py`) -/

/-- Embeds `acp_framework.models.Allowance`, restricted to the field the
precondition checks read. -/
structure Allowance where
  max_amount : Int
deriving DecidableEq, Repr

/-- Embeds `acp_framework.models.PaymentMethodCard`, restricted to the card
number. -/
structure PaymentMethodCard where
  number : String
deriving DecidableEq, Repr

/-- Embeds `acp_framework.models.DelegatePaymentRequest`, restricted to the fields
the precondition checks read. -/
structure DelegatePaymentRequest where
  payment_method : PaymentMethodCard
  allowance : Allowance
deriving DecidableEq, Repr

/-- The post-idempotency core of `create_delegated_payment`
(`services/psp/main.py` lines 183–221): reject 422 `invalid_amount` when
`allowance.max_amount <= 0`, else reject 400 `invalid_card` when the card
number has fewer than 13 characters, else invoke the provider.  The
provider's result is a parameter (it is an external collaborator); the
returned `Bool` records whether the provider was invoked. -/
def create_delegated_payment {β : Type} (body : DelegatePaymentRequest)
    (provider_result : β) : HttpResponse β × Bool :=
  if body.allowance.max_amount ≤ 0 then
    (⟨422, .err ⟨"invalid_request", "invalid_amount",
      "max_amount must be positive", some "$.allowance.max_amount"⟩⟩, false)
  else if body.payment_method.number.length < 13 then
    (⟨400, .err ⟨"invalid_request", "invalid_card",
      "Card number is too short", some "$.payment_method.number"⟩⟩, false)
  else
    (⟨201, .payload provider_result⟩, true)

/-! ## Ledger lemmas and claims C1–C3 -/

theorem storeGet_storeSet_self {β : Type} (store : IdemStore β)
    (k : String × String) (r : IdemRecord β) :
    storeGet (storeSet store k r) k = some r := by
  simp [storeGet, storeSet, List.find?]

/-- C1 counterexample.  A create-style request carrying idempotency key
`"key-1"` whose execution fails with a structured 409 `out_of_stock` error:
the handler returns the error (status 409), records nothing in the ledger
(`storeGet` still misses afterwards), and an identical retry reaches the
adapter again (`executed = true`) instead of replaying a stored error. -/
theorem failed_outcome_not_replayed_cex :
    (endpoint_step ([] : IdemStore String) "POST:/checkout_sessions"
        (some "key-1") (some "req-1") "hash-1" 201
        (.error ⟨409, ⟨"invalid_request", "out_of_stock",
          "Product p9 is not available", some "$.items"⟩⟩)).1.status_code = 409
    ∧ storeGet (endpoint_step ([] : IdemStore String) "POST:/checkout_sessions"
        (some "key-1") (some "req-1") "hash-1" 201
        (.error ⟨409, ⟨"invalid_request", "out_of_stock",
          "Product p9 is not available", some "$.items"⟩⟩)).2.1
        ("POST:/checkout_sessions", "key-1") = none
    ∧ (endpoint_step (endpoint_step ([] : IdemStore String)
        "POST:/checkout_sessions" (some "key-1") (some "req-1") "hash-1" 201
        (.error ⟨409, ⟨"invalid_request", "out_of_stock",
          "Product p9 is not available", some "$.items"⟩⟩)).2.1
        "POST:/checkout_sessions" (some "key-1") (some "req-1") "hash-1" 201
        (.error ⟨409, ⟨"invalid_request", "out_of_stock",
          "Product p9 is not available", some "$.items"⟩⟩)).2.2 = true := by
  exact ⟨rfl, rfl, rfl⟩

/-- C1 (amended): a mutating checkout operation that fails with a structured
`ACPSellerError` leaves the idempotency ledger unchanged — the `except`
branch of the handlers never calls `_idempotency_store` — so when no record
existed for `(route, key)` the error response is returned without being
recorded, and any retry against the unchanged ledger reaches the adapter
again (`executed = true`). -/
theorem failed_outcomes_not_stored {β : Type} (store : IdemStore β)
    (route k : String) (rid : Option String) (hash : String)
    (success_status : Nat) (e : ACPSellerError) :
    (endpoint_step store route (some k) rid hash success_status
        (.error e)).2.1 = store
    ∧ (storeGet store (route, k) = none →
        endpoint_step store route (some k) rid hash success_status (.error e)
          = (⟨e.status_code, .err e.error⟩, store, true))
    ∧ (storeGet store (route, k) = none →
        ∀ op₂ : Except ACPSellerError β,
          (endpoint_step store route (some k) rid hash success_status
            op₂).2.2 = true) := by
  refine ⟨?_, ?_, ?_⟩
  · unfold endpoint_step
    cases h : idempotency_lookup store route (some k) hash with
    | none => simp
    | some resp => simp
  · intro hmiss
    simp [endpoint_step, idempotency_lookup, hmiss]
  · intro hmiss op₂
    simp only [endpoint_step, idempotency_lookup, hmiss]
    cases op₂ <;> simp

/-- C1 witness: the amended theorem applied at a concrete ledger, route,
key and error. -/
theorem failed_outcomes_not_stored_witness :
    storeGet ([] : IdemStore String) ("POST:/checkout_sessions", "key-1") = none
    ∧ endpoint_step ([] : IdemStore String) "POST:/checkout_sessions"
        (some "key-1") none "hash-1" 201
        (.error ⟨409, ⟨"invalid_request", "out_of_stock", "m", some "$.items"⟩⟩)
      = (⟨409, .err ⟨"invalid_request", "out_of_stock", "m", some "$.items"⟩⟩,
         [], true) :=
  ⟨rfl,
   (failed_outcomes_not_stored ([] : IdemStore String) "POST:/checkout_sessions"
      "key-1" none "hash-1" 201
      ⟨409, ⟨"invalid_request", "out_of_stock", "m", some "$.items"⟩⟩).2.1 rfl⟩

/-- C2: when a record is stored for `(route, key)` and the repeated
request's canonical payload hash equals the stored hash, the handler
returns exactly the stored status code and stored response body, leaves the
ledger unchanged, and never reaches the adapter operation
(`executed = false`), for every adapter outcome `op`. -/
theorem idempotent_replay {β : Type} (store : IdemStore β) (route k : String)
    (rid : Option String) (hash : String) (success_status : Nat)
    (op : Except ACPSellerError β) (rec : IdemRecord β)
    (hget : storeGet store (route, k) = some rec)
    (hhash : rec.payload_hash = hash) :
    endpoint_step store route (some k) rid hash success_status op
      = (⟨rec.status_code, rec.response_body⟩, store, false) := by
  simp [endpoint_step, idempotency_lookup, hget, hhash]

/-- C2 witness: replay against a concrete one-record ledger. -/
theorem idempotent_replay_witness :
    storeGet ([(("POST:/checkout_sessions", "key-1"),
        ⟨some "req-0", "hash-1", 201, RespBody.payload "session-dump"⟩)] :
        IdemStore String) ("POST:/checkout_sessions", "key-1")
      = some ⟨some "req-0", "hash-1", 201, RespBody.payload "session-dump"⟩
    ∧ endpoint_step ([(("POST:/checkout_sessions", "key-1"),
        ⟨some "req-0", "hash-1", 201, RespBody.payload "session-dump"⟩)] :
        IdemStore String) "POST:/checkout_sessions" (some "key-1")
        (some "req-9") "hash-1" 201 (.ok "fresh-dump")
      = (⟨201, RespBody.payload "session-dump"⟩,
         [(("POST:/checkout_sessions", "key-1"),
           ⟨some "req-0", "hash-1", 201, RespBody.payload "session-dump"⟩)],
         false) :=
  ⟨rfl,
   idempotent_replay
     [(("POST:/checkout_sessions", "key-1"),
       ⟨some "req-0", "hash-1", 201, RespBody.payload "session-dump"⟩)]
     "POST:/checkout_sessions" "key-1" (some "req-9")
     "hash-1" 201 (.ok "fresh-dump")
     ⟨some "req-0", "hash-1", 201, RespBody.payload "session-dump"⟩ rfl rfl⟩

/-- C3: when a record is stored for `(route, key)` and the repeated
request's canonical payload hash differs from the stored one, the handler
returns the 409 `request_not_idempotent` error, leaves the whole ledger —
in particular the original record with its payload hash, status code,
response body and request id — unchanged, and never reaches the adapter
operation. -/
theorem idempotency_conflict {β : Type} (store : IdemStore β)
    (route k : String) (rid : Option String) (hash : String)
    (success_status : Nat) (op : Except ACPSellerError β)
    (rec : IdemRecord β)
    (hget : storeGet store (route, k) = some rec)
    (hhash : rec.payload_hash ≠ hash) :
    endpoint_step store route (some k) rid hash success_status op
      = (⟨409, .err ⟨"invalid_request", "request_not_idempotent",
          "Idempotency key reused with different request payload",
          some "$.headers.Idempotency-Key"⟩⟩, store, false)
    ∧ storeGet (endpoint_step store route (some k) rid hash success_status
        op).2.1 (route, k) = some rec := by
  have hstep : endpoint_step store route (some k) rid hash success_status op
      = (⟨409, .err ⟨"invalid_request", "request_not_idempotent",
          "Idempotency key reused with different request payload",
          some "$.headers.Idempotency-Key"⟩⟩, store, false) := by
    simp [endpoint_step, idempotency_lookup, hget, hhash]
  exact ⟨hstep, by rw [hstep]; exact hget⟩

/-- C3 witness: conflict against a concrete one-record ledger. -/
theorem idempotency_conflict_witness :
    storeGet ([(("POST:/checkout_sessions", "key-1"),
        ⟨some "req-0", "hash-1", 201, RespBody.payload "session-dump"⟩)] :
        IdemStore String) ("POST:/checkout_sessions", "key-1")
      = some ⟨some "req-0", "hash-1", 201, RespBody.payload "session-dump"⟩
    ∧ endpoint_step ([(("POST:/checkout_sessions", "key-1"),
        ⟨some "req-0", "hash-1", 201, RespBody.payload "session-dump"⟩)] :
        IdemStore String) "POST:/checkout_sessions" (some "key-1")
        (some "req-9") "hash-2" 201 (.ok "fresh-dump")
      = (⟨409, .err ⟨"invalid_request", "request_not_idempotent",
          "Idempotency key reused with different request payload",
          some "$.headers.Idempotency-Key"⟩⟩,
         [(("POST:/checkout_sessions", "key-1"),
           ⟨some "req-0", "hash-1", 201, RespBody.payload "session-dump"⟩)],
         false) :=
  ⟨rfl,
   (idempotency_conflict
      [(("POST:/checkout_sessions", "key-1"),
        ⟨some "req-0", "hash-1", 201, RespBody.payload "session-dump"⟩)]
      "POST:/checkout_sessions" "key-1" (some "req-9")
      "hash-2" 201 (.ok "fresh-dump")
      ⟨some "req-0", "hash-1", 201, RespBody.payload "session-dump"⟩ rfl
      (by decide)).1⟩

/-! ## Pricing lemmas -/

theorem ceilTax_bounds (b : Nat) :
    8 * b ≤ 100 * ceilTax b ∧ 100 * ceilTax b < 8 * b + 100 := by
  unfold ceilTax
  omega

theorem ceilTax_sum_bounds (l : List Nat) :
    ceilTax l.sum ≤ (l.map ceilTax).sum
    ∧ (l.map ceilTax).sum ≤ ceilTax l.sum + l.length := by
  induction l with
  | nil => simp [ceilTax]
  | cons a t ih =>
    obtain ⟨ih1, ih2⟩ := ih
    have h1 : ceilTax (a + t.sum) ≤ ceilTax a + ceilTax t.sum := by
      unfold ceilTax
      omega
    have h2 : ceilTax a + ceilTax t.sum ≤ ceilTax (a + t.sum) + 1 := by
      unfold ceilTax
      omega
    simp only [List.sum_cons, List.map_cons, List.length_cons]
    omega

/-- Structural specification of the `_build_session` pricing loop: the
accumulated subtotal is the sum of the line items' base amounts, and each
line item prices an in-stock catalog product as
`base = price_cents * quantity`, `tax = ceilTax base`, `total = base + tax`,
with zero discount. -/
theorem buildLineItems_spec (catalog : List Product) (items : List ItemReq) :
    ∀ (lis : List LineItem) (sub : Nat),
      buildLineItems catalog items = .ok (lis, sub) →
      sub = (lis.map fun li => li.base_amount).sum
      ∧ ∀ li ∈ lis,
          li.subtotal = li.base_amount ∧ li.discount = 0
          ∧ li.tax = ceilTax li.base_amount
          ∧ li.total = li.base_amount + li.tax
          ∧ ∃ p, findProduct catalog li.item_id = some p
              ∧ p.in_stock = true
              ∧ li.base_amount = p.price_cents * li.quantity := by
  induction items with
  | nil =>
    intro lis sub h
    simp only [buildLineItems, Except.ok.injEq, Prod.mk.injEq] at h
    obtain ⟨hl, hs⟩ := h
    subst hl
    subst hs
    exact ⟨rfl, by simp⟩
  | cons item rest ih =>
    intro lis sub h
    unfold buildLineItems at h
    cases hp : findProduct catalog item.id with
    | none =>
      simp [hp] at h
    | some p =>
      simp only [hp] at h
      by_cases hstock : p.in_stock = false
      · rw [if_pos hstock] at h
        exact absurd h (by simp)
      · rw [if_neg hstock] at h
        cases hr : buildLineItems catalog rest with
        | error e =>
          simp [hr] at h
        | ok pr =>
          obtain ⟨lis', sub'⟩ := pr
          simp only [hr, Except.ok.injEq, Prod.mk.injEq] at h
          obtain ⟨hl, hs⟩ := h
          obtain ⟨ihsub, ihmem⟩ := ih lis' sub' hr
          have hpid : p.id = item.id := by
            have := List.find?_some hp
            exact of_decide_eq_true this
          have hinstock : p.in_stock = true := by
            cases hb : p.in_stock with
            | false => exact absurd hb hstock
            | true => rfl
          subst hl
          constructor
          · simp only [List.map_cons, List.sum_cons]
            omega
          · intro li hli
            cases List.mem_cons.mp hli with
            | inl hhead =>
              subst hhead
              refine ⟨rfl, rfl, rfl, rfl, p, ?_, hinstock, rfl⟩
              show findProduct catalog p.id = some p
              rw [hpid]
              exact hp
            | inr htail => exact ihmem li htail

/-- Structural specification of `_build_session` on success: the resulting
session carries exactly the inputs, the priced line items, and the totals
list the source assembles. -/
theorem build_session_ok {catalog : List Product} {sid : String}
    {items : List ItemReq} {st : CheckoutStatus} {buyer : Option String}
    {addr fid : Option String} {s : CheckoutSession}
    (h : build_session catalog sid items st buyer addr fid = .ok s) :
    ∃ lis sub, buildLineItems catalog items = .ok (lis, sub)
      ∧ s = { id := sid, buyer := buyer, status := st, currency := "usd",
              line_items := lis, fulfillment_address := addr,
              fulfillment_option_id := fid,
              totals :=
                [⟨.items_base_amount, "Item(s) total", sub⟩,
                 ⟨.subtotal, "Subtotal", sub⟩,
                 ⟨.tax, "Tax", ceilTax sub⟩]
                ++ (if fulfillmentTotal fid ≠ 0 then
                      [⟨.fulfillment, "Shipping", fulfillmentTotal fid⟩]
                    else [])
                ++ [⟨.total, "Total",
                     sub + ceilTax sub + fulfillmentTotal fid⟩] } := by
  unfold build_session at h
  cases hb : buildLineItems catalog items with
  | error e =>
    rw [hb] at h
    exact absurd h (by simp)
  | ok pr =>
    obtain ⟨lis, sub⟩ := pr
    rw [hb] at h
    simp only [Except.ok.injEq] at h
    exact ⟨lis, sub, rfl, h.symm⟩

/-! ## Claims C4–C5 -/

/-- C4: a session produced by `on_create_session` has status
`READY_FOR_PAYMENT` iff a fulfillment address was supplied (no
fulfillment-option requirement at create time), else
`NOT_READY_FOR_PAYMENT`; a session produced by a successful
`on_update_session` has status `READY_FOR_PAYMENT` iff both a fulfillment
address and a fulfillment-option selection are present after merging the
request with the existing row, and `NOT_READY_FOR_PAYMENT` otherwise. -/
theorem status_readiness :
    (∀ (catalog : List Product) (sid : String)
        (req : CheckoutSessionCreateRequest) (s : CheckoutSession),
        on_create_session catalog sid req = .ok s →
        (s.status = CheckoutStatus.ready_for_payment ↔
            req.fulfillment_address.isSome = true)
        ∧ (s.status = CheckoutStatus.not_ready_for_payment ↔
            req.fulfillment_address.isSome = false))
    ∧ (∀ (catalog : List Product) (row : CheckoutSessionRow)
        (req : CheckoutSessionUpdateRequest) (s : CheckoutSession)
        (row' : CheckoutSessionRow),
        on_update_session catalog (some row) req = .ok (s, row') →
        (s.status = CheckoutStatus.ready_for_payment ↔
            ((mergedAddress req row).isSome = true
             ∧ (mergedOptionId req row).isSome = true))
        ∧ (s.status = CheckoutStatus.ready_for_payment
           ∨ s.status = CheckoutStatus.not_ready_for_payment)) := by
  constructor
  · intro catalog sid req s h
    unfold on_create_session at h
    obtain ⟨lis, sub, hb, hs⟩ := build_session_ok h
    subst hs
    cases hA : req.fulfillment_address.isSome <;> simp [hA]
  · intro catalog row req s row' h
    by_cases hterm : row.status = "completed" ∨ row.status = "canceled"
    · simp [on_update_session, hterm] at h
    · simp only [on_update_session, if_neg hterm] at h
      cases hbs : build_session catalog row.id (mergedItems req row)
          (updateStatus req row) (mergedBuyer req row)
          (mergedAddress req row) (mergedOptionId req row) with
      | error e =>
        simp [hbs] at h
      | ok session =>
        simp only [hbs, Except.ok.injEq, Prod.mk.injEq] at h
        obtain ⟨hsess, hrow⟩ := h
        obtain ⟨lis, sub, hb, hs⟩ := build_session_ok hbs
        subst hsess
        subst hs
        unfold updateStatus
        cases hA : (mergedAddress req row).isSome <;>
          cases hF : (mergedOptionId req row).isSome <;> simp

/-- C4 witness: create with an address yields `READY_FOR_PAYMENT`. -/
theorem status_readiness_witness :
    on_create_session [⟨"p1", 1000, true⟩] "cs_1"
        ⟨none, [⟨"p1", 2⟩], some "addr"⟩
      = .ok { id := "cs_1", buyer := none,
              status := CheckoutStatus.ready_for_payment, currency := "usd",
              line_items := [⟨"li_p1", "p1", 2, 2000, 0, 2000, 160, 2160⟩],
              fulfillment_address := some "addr",
              fulfillment_option_id := none,
              totals := [⟨.items_base_amount, "Item(s) total", 2000⟩,
                         ⟨.subtotal, "Subtotal", 2000⟩,
                         ⟨.tax, "Tax", 160⟩,
                         ⟨.total, "Total", 2160⟩] }
    ∧ (({ id := "cs_1", buyer := none,
          status := CheckoutStatus.ready_for_payment, currency := "usd",
          line_items := [⟨"li_p1", "p1", 2, 2000, 0, 2000, 160, 2160⟩],
          fulfillment_address := some "addr",
          fulfillment_option_id := none,
          totals := [⟨.items_base_amount, "Item(s) total", 2000⟩,
                     ⟨.subtotal, "Subtotal", 2000⟩,
                     ⟨.tax, "Tax", 160⟩,
                     ⟨.total, "Total", 2160⟩] } : CheckoutSession).status
        = CheckoutStatus.ready_for_payment ↔
      (some "addr" : Option String).isSome = true) :=
  ⟨rfl,
   (status_readiness.1 [⟨"p1", 1000, true⟩] "cs_1"
      ⟨none, [⟨"p1", 2⟩], some "addr"⟩
      { id := "cs_1", buyer := none,
        status := CheckoutStatus.ready_for_payment, currency := "usd",
        line_items := [⟨"li_p1", "p1", 2, 2000, 0, 2000, 160, 2160⟩],
        fulfillment_address := some "addr",
        fulfillment_option_id := none,
        totals := [⟨.items_base_amount, "Item(s) total", 2000⟩,
                   ⟨.subtotal, "Subtotal", 2000⟩,
                   ⟨.tax, "Tax", 160⟩,
                   ⟨.total, "Total", 2160⟩] } rfl).1⟩

/-- C5: every session built by `_build_session` (hence by create and
update) has its totals list ordered items-base, subtotal, tax, then a
fulfillment entry exactly when the fulfillment amount is nonzero; no
discount entry ever appears (this merchant never produces one, so the
claim's discount clauses hold with discount = 0), and the last entry has
kind `TOTAL` with amount `subtotal + tax + fulfillment` (− the always-zero
discount). -/
theorem totals_list_shape :
    ∀ (catalog : List Product) (sid : String) (items : List ItemReq)
      (st : CheckoutStatus) (buyer : Option String)
      (addr fid : Option String) (s : CheckoutSession),
      build_session catalog sid items st buyer addr fid = .ok s →
      ∃ sub ful,
        sub = (s.line_items.map fun li => li.base_amount).sum
        ∧ ful = fulfillmentTotal fid
        ∧ s.totals =
            [⟨.items_base_amount, "Item(s) total", sub⟩,
             ⟨.subtotal, "Subtotal", sub⟩,
             ⟨.tax, "Tax", ceilTax sub⟩]
            ++ (if ful ≠ 0 then [⟨.fulfillment, "Shipping", ful⟩] else [])
            ++ [⟨.total, "Total", sub + ceilTax sub + ful⟩]
        ∧ (∀ t ∈ s.totals, t.type ≠ TotalType.discount)
        ∧ (∀ li ∈ s.line_items, li.discount = 0)
        ∧ s.totals.getLast? = some ⟨.total, "Total", sub + ceilTax sub + ful⟩ := by
  intro catalog sid items st buyer addr fid s h
  obtain ⟨lis, sub, hb, hs⟩ := build_session_ok h
  obtain ⟨hsub, hmem⟩ := buildLineItems_spec catalog items lis sub hb
  subst hs
  refine ⟨sub, fulfillmentTotal fid, hsub, rfl, rfl, ?_, ?_, ?_⟩
  · by_cases hful : fulfillmentTotal fid ≠ 0 <;> simp [hful]
  · intro li hli
    exact (hmem li hli).2.1
  · by_cases hful : fulfillmentTotal fid ≠ 0 <;>
      simp [hful, List.getLast?_append]

/-- C5 witness: a session built with the standard-shipping option selected
(fulfillment amount 863 = 799 + ceilTax 799). -/
theorem totals_list_shape_witness :
    build_session [⟨"p1", 1000, true⟩] "cs_1" [⟨"p1", 2⟩]
        CheckoutStatus.ready_for_payment none (some "addr") (some "ship_std")
      = .ok { id := "cs_1", buyer := none,
              status := CheckoutStatus.ready_for_payment, currency := "usd",
              line_items := [⟨"li_p1", "p1", 2, 2000, 0, 2000, 160, 2160⟩],
              fulfillment_address := some "addr",
              fulfillment_option_id := some "ship_std",
              totals := [⟨.items_base_amount, "Item(s) total", 2000⟩,
                         ⟨.subtotal, "Subtotal", 2000⟩,
                         ⟨.tax, "Tax", 160⟩,
                         ⟨.fulfillment, "Shipping", 863⟩,
                         ⟨.total, "Total", 3023⟩] }
    ∧ (∃ sub ful,
        sub = (2000 : Nat)
        ∧ ful = (863 : Nat)
        ∧ ([⟨.items_base_amount, "Item(s) total", 2000⟩,
            ⟨.subtotal, "Subtotal", 2000⟩,
            ⟨.tax, "Tax", 160⟩,
            ⟨.fulfillment, "Shipping", 863⟩,
            ⟨.total, "Total", 3023⟩] : List Total) =
            [⟨.items_base_amount, "Item(s) total", sub⟩,
             ⟨.subtotal, "Subtotal", sub⟩,
             ⟨.tax, "Tax", ceilTax sub⟩]
            ++ (if ful ≠ 0 then [⟨.fulfillment, "Shipping", ful⟩] else [])
            ++ [⟨.total, "Total", sub + ceilTax sub + ful⟩]
        ∧ (∀ t ∈ ([⟨.items_base_amount, "Item(s) total", 2000⟩,
                   ⟨.subtotal, "Subtotal", 2000⟩,
                   ⟨.tax, "Tax", 160⟩,
                   ⟨.fulfillment, "Shipping", 863⟩,
                   ⟨.total, "Total", 3023⟩] : List Total),
             t.type ≠ TotalType.discount)
        ∧ (∀ li ∈ ([⟨"li_p1", "p1", 2, 2000, 0, 2000, 160, 2160⟩] :
             List LineItem), li.discount = 0)
        ∧ ([⟨.items_base_amount, "Item(s) total", 2000⟩,
            ⟨.subtotal, "Subtotal", 2000⟩,
            ⟨.tax, "Tax", 160⟩,
            ⟨.fulfillment, "Shipping", 863⟩,
            ⟨.total, "Total", 3023⟩] : List Total).getLast?
            = some ⟨.total, "Total", sub + ceilTax sub + ful⟩) :=
  ⟨rfl,
   totals_list_shape [⟨"p1", 1000, true⟩] "cs_1" [⟨"p1", 2⟩]
     CheckoutStatus.ready_for_payment none (some "addr") (some "ship_std")
     { id := "cs_1", buyer := none,
       status := CheckoutStatus.ready_for_payment, currency := "usd",
       line_items := [⟨"li_p1", "p1", 2, 2000, 0, 2000, 160, 2160⟩],
       fulfillment_address := some "addr",
       fulfillment_option_id := some "ship_std",
       totals := [⟨.items_base_amount, "Item(s) total", 2000⟩,
                  ⟨.subtotal, "Subtotal", 2000⟩,
                  ⟨.tax, "Tax", 160⟩,
                  ⟨.fulfillment, "Shipping", 863⟩,
                  ⟨.total, "Total", 3023⟩] } rfl⟩

/-! ## Claims C6–C7 -/

/-- C6: every line item built by the pricing loop has
`base_amount = price_cents * quantity` for the referenced catalog product,
`tax = ceilTax base_amount` — pinned as the ceiling of `8 * base / 100` by
the two-sided bound `8·base ≤ 100·tax < 8·base + 100` — and
`total = base_amount + tax`. -/
theorem line_item_pricing :
    ∀ (catalog : List Product) (items : List ItemReq)
      (lis : List LineItem) (sub : Nat),
      buildLineItems catalog items = .ok (lis, sub) →
      ∀ li ∈ lis,
        (∃ p, findProduct catalog li.item_id = some p
           ∧ li.base_amount = p.price_cents * li.quantity)
        ∧ li.tax = ceilTax li.base_amount
        ∧ (8 * li.base_amount ≤ 100 * li.tax
           ∧ 100 * li.tax < 8 * li.base_amount + 100)
        ∧ li.total = li.base_amount + li.tax := by
  intro catalog items lis sub h li hli
  obtain ⟨_, hmem⟩ := buildLineItems_spec catalog items lis sub h
  obtain ⟨_, _, htax, htot, p, hp, _, hbase⟩ := hmem li hli
  refine ⟨⟨p, hp, hbase⟩, htax, ?_, htot⟩
  rw [htax]
  exact ceilTax_bounds li.base_amount

/-- C6 witness: one line item at unit price 1000, quantity 2, tax rate 8%:
base 2000, tax 160, total 2160 (the spec's own example). -/
theorem line_item_pricing_witness :
    buildLineItems [⟨"p1", 1000, true⟩] [⟨"p1", 2⟩]
      = .ok ([⟨"li_p1", "p1", 2, 2000, 0, 2000, 160, 2160⟩], 2000)
    ∧ ((∃ p, findProduct [⟨"p1", 1000, true⟩] "p1" = some p
          ∧ (2000 : Nat) = p.price_cents * 2)
       ∧ (160 : Nat) = ceilTax 2000
       ∧ (8 * 2000 ≤ 100 * 160 ∧ 100 * 160 < 8 * 2000 + 100)
       ∧ (2160 : Nat) = 2000 + 160) :=
  ⟨rfl,
   line_item_pricing [⟨"p1", 1000, true⟩] [⟨"p1", 2⟩]
     [⟨"li_p1", "p1", 2, 2000, 0, 2000, 160, 2160⟩] 2000 rfl
     ⟨"li_p1", "p1", 2, 2000, 0, 2000, 160, 2160⟩ (by simp)⟩

theorem map_tax_eq (lis : List LineItem)
    (h : ∀ li ∈ lis, li.tax = ceilTax li.base_amount) :
    lis.map (fun li => li.tax)
      = (lis.map fun li => li.base_amount).map ceilTax := by
  rw [List.map_map]
  exact List.map_congr_left h

/-- C7: the session-level tax entry of every built session equals the
ceiling of the sum of the line-item bases times the tax rate — computed
from the subtotal, independently of the per-line taxes — and differs from
the sum of the rounded per-line taxes by at most the number of line items
(the sum of per-line ceilings is at least the session tax and at most the
session tax plus the item count). -/
theorem session_tax_rounding :
    ∀ (catalog : List Product) (sid : String) (items : List ItemReq)
      (st : CheckoutStatus) (buyer : Option String)
      (addr fid : Option String) (s : CheckoutSession),
      build_session catalog sid items st buyer addr fid = .ok s →
      ∃ e, s.totals.find? (fun t => decide (t.type = TotalType.tax)) = some e
        ∧ e.amount = ceilTax ((s.line_items.map fun li => li.base_amount).sum)
        ∧ e.amount ≤ (s.line_items.map fun li => li.tax).sum
        ∧ (s.line_items.map fun li => li.tax).sum
            ≤ e.amount + s.line_items.length := by
  intro catalog sid items st buyer addr fid s h
  obtain ⟨lis, sub, hb, hs⟩ := build_session_ok h
  obtain ⟨hsub, hmem⟩ := buildLineItems_spec catalog items lis sub hb
  subst hs
  have hmap : lis.map (fun li => li.tax)
      = (lis.map fun li => li.base_amount).map ceilTax :=
    map_tax_eq lis fun li hli => (hmem li hli).2.2.1
  have hbounds := ceilTax_sum_bounds (lis.map fun li => li.base_amount)
  refine ⟨⟨.tax, "Tax", ceilTax sub⟩, ?_, ?_, ?_, ?_⟩
  · simp only [List.cons_append]
    rw [List.find?_cons_of_neg _ (by simp),
        List.find?_cons_of_neg _ (by simp),
        List.find?_cons_of_pos _ (by simp)]
  · show ceilTax sub = ceilTax ((lis.map fun li => li.base_amount).sum)
    rw [hsub]
  · show ceilTax sub ≤ (lis.map fun li => li.tax).sum
    rw [hsub, hmap]
    exact hbounds.1
  · show (lis.map fun li => li.tax).sum ≤ ceilTax sub + lis.length
    rw [hsub, hmap]
    have hlen : (lis.map fun li => li.base_amount).length = lis.length :=
      List.length_map lis _
    rw [← hlen]
    exact hbounds.2

/-- C7 witness: two items at 30 minor units each: per-line taxes
`ceil(2.4) = 3` sum to 6, session tax is `ceil(4.8) = 5`; the difference 1
is within the item count 2. -/
theorem session_tax_rounding_witness :
    build_session [⟨"p1", 30, true⟩, ⟨"p2", 30, true⟩] "cs_2"
        [⟨"p1", 1⟩, ⟨"p2", 1⟩]
        CheckoutStatus.not_ready_for_payment none none none
      = .ok { id := "cs_2", buyer := none,
              status := CheckoutStatus.not_ready_for_payment,
              currency := "usd",
              line_items := [⟨"li_p1", "p1", 1, 30, 0, 30, 3, 33⟩,
                             ⟨"li_p2", "p2", 1, 30, 0, 30, 3, 33⟩],
              fulfillment_address := none, fulfillment_option_id := none,
              totals := [⟨.items_base_amount, "Item(s) total", 60⟩,
                         ⟨.subtotal, "Subtotal", 60⟩,
                         ⟨.tax, "Tax", 5⟩,
                         ⟨.total, "Total", 65⟩] }
    ∧ (∃ e, ([⟨.items_base_amount, "Item(s) total", 60⟩,
              ⟨.subtotal, "Subtotal", 60⟩,
              ⟨.tax, "Tax", 5⟩,
              ⟨.total, "Total", 65⟩] : List Total).find?
          (fun t => decide (t.type = TotalType.tax)) = some e
        ∧ e.amount = ceilTax 60
        ∧ e.amount ≤ 6
        ∧ (6 : Nat) ≤ e.amount + 2) :=
  ⟨rfl,
   session_tax_rounding [⟨"p1", 30, true⟩, ⟨"p2", 30, true⟩] "cs_2"
     [⟨"p1", 1⟩, ⟨"p2", 1⟩] CheckoutStatus.not_ready_for_payment none none none
     { id := "cs_2", buyer := none,
       status := CheckoutStatus.not_ready_for_payment, currency := "usd",
       line_items := [⟨"li_p1", "p1", 1, 30, 0, 30, 3, 33⟩,
                      ⟨"li_p2", "p2", 1, 30, 0, 30, 3, 33⟩],
       fulfillment_address := none, fulfillment_option_id := none,
       totals := [⟨.items_base_amount, "Item(s) total", 60⟩,
                  ⟨.subtotal, "Subtotal", 60⟩,
                  ⟨.tax, "Tax", 5⟩,
                  ⟨.total, "Total", 65⟩] } rfl⟩

/-! ## Claim C8 -/

theorem getSessionRow_set (l : List CheckoutSessionRow) (sid : String)
    (row0 row' : CheckoutSessionRow)
    (h : l.find? (fun r => decide (r.id = sid)) = some row0)
    (hid : row'.id = sid) :
    (l.map fun r => if r.id = row'.id then row' else r).find?
      (fun r => decide (r.id = sid)) = some row' := by
  induction l with
  | nil => simp [List.find?] at h
  | cons a t ih =>
    by_cases ha : a.id = sid
    · have hhead : (if a.id = row'.id then row' else a) = row' := by
        rw [if_pos (by rw [ha, hid])]
      simp only [List.map_cons, hhead]
      exact List.find?_cons_of_pos _ (by simp [hid])
    · have hhead : (if a.id = row'.id then row' else a) = a := by
        rw [if_neg]
        intro hcontra
        exact ha (by rw [hcontra, hid])
      have h' : t.find? (fun r => decide (r.id = sid)) = some row0 := by
        rw [List.find?_cons_of_neg _ (by simp [ha])] at h
        exact h
      simp only [List.map_cons, hhead]
      rw [List.find?_cons_of_neg _ (by simp [ha])]
      exact ih h'

/-- C8: `on_complete_session` on an existing session row fails 409
`not_ready` (state unchanged) unless the stored status is exactly
`"ready_for_payment"`; fails 402 `payment_declined` (state unchanged — the
row keeps its `ready_for_payment` status and no order is added) when the
payment token is the decline sentinel; and only in the remaining case
returns the completed session, appends exactly one order, and sets the
stored row's status to `"completed"`. -/
theorem complete_session_behavior :
    ∀ (st : SellerState) (sid oid token : String) (row : CheckoutSessionRow),
      getSessionRow st sid = some row →
      (row.status ≠ "ready_for_payment" →
        on_complete_session st sid oid token =
          (.error ⟨409, ⟨"conflict", "not_ready",
            "Session is '" ++ row.status ++ "', must be 'ready_for_payment'",
            none⟩⟩, st))
      ∧ (row.status = "ready_for_payment" → token = "decline_token" →
          on_complete_session st sid oid token =
            (.error ⟨402, ⟨"invalid_request", "payment_declined",
              "Payment was declined by issuer",
              some "$.payment_data.token"⟩⟩, st))
      ∧ (row.status = "ready_for_payment" → token ≠ "decline_token" →
          (on_complete_session st sid oid token).1 =
            .ok ({ row.session_data with status := CheckoutStatus.completed },
                 ⟨oid, sid, token, grandTotalOf row.session_data, "created"⟩)
          ∧ (on_complete_session st sid oid token).2.orders
              = st.orders
                ++ [⟨oid, sid, token, grandTotalOf row.session_data, "created"⟩]
          ∧ getSessionRow (on_complete_session st sid oid token).2 sid
              = some { row with
                       status := "completed"
                       session_data :=
                         { row.session_data with
                           status := CheckoutStatus.completed } }) := by
  intro st sid oid token row hget
  have hget' : st.sessions.find? (fun r => decide (r.id = sid)) = some row :=
    hget
  have hdec := List.find?_some hget'
  have hrowid : row.id = sid := of_decide_eq_true hdec
  refine ⟨?_, ?_, ?_⟩
  · intro hnr
    simp only [on_complete_session, hget]
    rw [if_pos hnr]
  · intro hr htok
    simp only [on_complete_session, hget]
    rw [if_neg (by simp [hr]), if_pos htok]
  · intro hr htok
    simp only [on_complete_session, hget]
    rw [if_neg (by simp [hr]), if_neg htok]
    refine ⟨rfl, rfl, ?_⟩
    exact getSessionRow_set st.sessions sid row _ hget hrowid

/-- C8 witness: completing a ready session with a non-decline token creates
exactly one order with the session's grand total and marks the row
completed. -/
theorem complete_session_behavior_witness :
    getSessionRow
        ⟨[⟨"cs_1", "ready_for_payment", none, [], some "addr",
           some "ship_std",
           ⟨"cs_1", none, CheckoutStatus.ready_for_payment, "usd", [],
            none, none, [⟨.total, "Total", 65⟩]⟩⟩], []⟩ "cs_1"
      = some ⟨"cs_1", "ready_for_payment", none, [], some "addr",
              some "ship_std",
              ⟨"cs_1", none, CheckoutStatus.ready_for_payment, "usd", [],
               none, none, [⟨.total, "Total", 65⟩]⟩⟩
    ∧ ((on_complete_session
          ⟨[⟨"cs_1", "ready_for_payment", none, [], some "addr",
             some "ship_std",
             ⟨"cs_1", none, CheckoutStatus.ready_for_payment, "usd", [],
              none, none, [⟨.total, "Total", 65⟩]⟩⟩], []⟩
          "cs_1" "order_1" "tok_1").1
        = .ok (⟨"cs_1", none, CheckoutStatus.completed, "usd", [],
                none, none, [⟨.total, "Total", 65⟩]⟩,
               ⟨"order_1", "cs_1", "tok_1", 65, "created"⟩)
       ∧ (on_complete_session
            ⟨[⟨"cs_1", "ready_for_payment", none, [], some "addr",
               some "ship_std",
               ⟨"cs_1", none, CheckoutStatus.ready_for_payment, "usd", [],
                none, none, [⟨.total, "Total", 65⟩]⟩⟩], []⟩
            "cs_1" "order_1" "tok_1").2.orders
          = [] ++ [⟨"order_1", "cs_1", "tok_1", 65, "created"⟩]
       ∧ getSessionRow
           (on_complete_session
             ⟨[⟨"cs_1", "ready_for_payment", none, [], some "addr",
                some "ship_std",
                ⟨"cs_1", none, CheckoutStatus.ready_for_payment, "usd", [],
                 none, none, [⟨.total, "Total", 65⟩]⟩⟩], []⟩
             "cs_1" "order_1" "tok_1").2 "cs_1"
          = some ⟨"cs_1", "completed", none, [], some "addr", some "ship_std",
                  ⟨"cs_1", none, CheckoutStatus.completed, "usd", [],
                   none, none, [⟨.total, "Total", 65⟩]⟩⟩) :=
  ⟨rfl,
   (complete_session_behavior
      ⟨[⟨"cs_1", "ready_for_payment", none, [], some "addr", some "ship_std",
         ⟨"cs_1", none, CheckoutStatus.ready_for_payment, "usd", [],
          none, none, [⟨.total, "Total", 65⟩]⟩⟩], []⟩
      "cs_1" "order_1" "tok_1"
      ⟨"cs_1", "ready_for_payment", none, [], some "addr", some "ship_std",
       ⟨"cs_1", none, CheckoutStatus.ready_for_payment, "usd", [],
        none, none, [⟨.total, "Total", 65⟩]⟩⟩ rfl).2.2 rfl (by decide)⟩

/-! ## Claim C9 -/

/-- C9: in the delegate-payment endpoint, after authentication, versioning
and idempotency handling, the provider is never invoked when
`allowance.max_amount ≤ 0` (rejected 422 `invalid_amount`, checked first)
or when the card number has fewer than 13 characters (rejected 400
`invalid_card` whenever the amount check passes); the provider is invoked
only when both preconditions hold. -/
theorem delegate_payment_preconditions :
    ∀ (β : Type) (body : DelegatePaymentRequest) (pr : β),
      (body.allowance.max_amount ≤ 0 →
        create_delegated_payment body pr
          = (⟨422, .err ⟨"invalid_request", "invalid_amount",
              "max_amount must be positive",
              some "$.allowance.max_amount"⟩⟩, false))
      ∧ (body.payment_method.number.length < 13 →
          (create_delegated_payment body pr).2 = false)
      ∧ (0 < body.allowance.max_amount →
          body.payment_method.number.length < 13 →
          create_delegated_payment body pr
            = (⟨400, .err ⟨"invalid_request", "invalid_card",
                "Card number is too short",
                some "$.payment_method.number"⟩⟩, false))
      ∧ ((create_delegated_payment body pr).2 = true →
          0 < body.allowance.max_amount
          ∧ 13 ≤ body.payment_method.number.length) := by
  intro β body pr
  unfold create_delegated_payment
  by_cases hamt : body.allowance.max_amount ≤ 0
  · rw [if_pos hamt]
    refine ⟨fun _ => rfl, fun _ => rfl, fun hpos _ => absurd hamt (by omega),
            fun hcontra => absurd hcontra (by simp)⟩
  · rw [if_neg hamt]
    by_cases hcard : body.payment_method.number.length < 13
    · rw [if_pos hcard]
      refine ⟨fun h => absurd h hamt, fun _ => rfl, fun _ _ => rfl,
              fun hcontra => absurd hcontra (by simp)⟩
    · rw [if_neg hcard]
      exact ⟨fun h => absurd h hamt, fun h => absurd h hcard,
             fun _ h => absurd h hcard, fun _ => by omega⟩

/-- C9 witness: a non-positive allowance is rejected 422 without invoking
the provider, and a short card number (with a valid allowance) is rejected
400 without invoking the provider. -/
theorem delegate_payment_preconditions_witness :
    create_delegated_payment ⟨⟨"4111111111111111"⟩, ⟨0⟩⟩ ("vt_1" : String)
      = (⟨422, .err ⟨"invalid_request", "invalid_amount",
          "max_amount must be positive", some "$.allowance.max_amount"⟩⟩,
         false)
    ∧ create_delegated_payment ⟨⟨"4111"⟩, ⟨500⟩⟩ ("vt_1" : String)
      = (⟨400, .err ⟨"invalid_request", "invalid_card",
          "Card number is too short", some "$.payment_method.number"⟩⟩,
         false) :=
  ⟨(delegate_payment_preconditions String ⟨⟨"4111111111111111"⟩, ⟨0⟩⟩
      "vt_1").1 (by decide),
   (delegate_payment_preconditions String ⟨⟨"4111"⟩, ⟨500⟩⟩
      "vt_1").2.2.1 (by decide) (by decide)⟩

/-! ## Claim C10 -/

theorem fulfillmentTotal_eq_zero {oid : String}
    (h : ∀ o ∈ get_fulfillment_options, o.id ≠ oid) :
    fulfillmentTotal (some oid) = 0 := by
  have hfind : get_fulfillment_options.find? (fun o => decide (o.id = oid))
      = none :=
    List.find?_eq_none.mpr fun o ho => by simp [h o ho]
  simp [fulfillmentTotal, hfind]

/-- C10 counterexample.  The empty string is a pydantic-legal
`fulfillment_option_id` that matches none of the merchant's offered
options, yet an update supplying it (with an address, over a row with no
stored selection) succeeds with status `NOT_READY_FOR_PAYMENT`: Python's
`request.fulfillment_option_id or row.fulfillment_option_id` treats `""`
as absent, so the selection does not count as present for readiness,
contradicting the claim's `READY_FOR_PAYMENT`. -/
theorem empty_option_id_not_ready_cex :
    (∀ o ∈ get_fulfillment_options, o.id ≠ "")
    ∧ (∃ s row',
        on_update_session [⟨"p1", 1000, true⟩]
          (some ⟨"cs_1", "not_ready_for_payment", none, [⟨"p1", 2⟩], none,
                 none,
                 ⟨"cs_1", none, CheckoutStatus.not_ready_for_payment, "usd",
                  [], none, none, []⟩⟩)
          ⟨none, none, some "addr", some ""⟩ = .ok (s, row')
        ∧ s.fulfillment_address = some "addr"
        ∧ s.status = CheckoutStatus.not_ready_for_payment) :=
  ⟨by decide, ⟨_, _, rfl, rfl, rfl⟩⟩

/-- C10 (amended): an update whose request supplies a NON-EMPTY
fulfillment-option id matching none of the merchant's offered options
still succeeds (given the items resolve): the fulfillment cost is zero and
no fulfillment entry appears in the totals list, the grand total is
`subtotal + tax` alone, yet the selection counts as present for readiness,
so with a merged address the status is `READY_FOR_PAYMENT`.  (An empty
string is falsy in the source's `or`-merge and counts as no selection —
see the counterexample.) -/
theorem unknown_option_still_ready :
    ∀ (catalog : List Product) (row : CheckoutSessionRow)
      (req : CheckoutSessionUpdateRequest) (oid : String)
      (lis : List LineItem) (sub : Nat),
      ¬(row.status = "completed" ∨ row.status = "canceled") →
      (mergedAddress req row).isSome = true →
      req.fulfillment_option_id = some oid →
      oid ≠ "" →
      (∀ o ∈ get_fulfillment_options, o.id ≠ oid) →
      buildLineItems catalog (mergedItems req row) = .ok (lis, sub) →
      ∃ s row', on_update_session catalog (some row) req = .ok (s, row')
        ∧ s.status = CheckoutStatus.ready_for_payment
        ∧ (∀ t ∈ s.totals, t.type ≠ TotalType.fulfillment)
        ∧ s.totals.getLast? = some ⟨.total, "Total", sub + ceilTax sub⟩ := by
  intro catalog row req oid lis sub hterm haddr hreq hne hunk hb
  have hopt : mergedOptionId req row = some oid := by
    simp only [mergedOptionId, hreq]
    rw [if_neg hne]
  have hful : fulfillmentTotal (mergedOptionId req row) = 0 := by
    rw [hopt]
    exact fulfillmentTotal_eq_zero hunk
  have hst : updateStatus req row = CheckoutStatus.ready_for_payment := by
    unfold updateStatus
    rw [haddr, hopt]
    simp
  have hbs : build_session catalog row.id (mergedItems req row)
      (updateStatus req row) (mergedBuyer req row) (mergedAddress req row)
      (mergedOptionId req row)
      = .ok { id := row.id, buyer := mergedBuyer req row,
              status := updateStatus req row, currency := "usd",
              line_items := lis,
              fulfillment_address := mergedAddress req row,
              fulfillment_option_id := mergedOptionId req row,
              totals := [⟨.items_base_amount, "Item(s) total", sub⟩,
                         ⟨.subtotal, "Subtotal", sub⟩,
                         ⟨.tax, "Tax", ceilTax sub⟩,
                         ⟨.total, "Total", sub + ceilTax sub⟩] } := by
    unfold build_session
    simp only [hb]
    simp [hful]
  cases hupd : on_update_session catalog (some row) req with
  | error e =>
    exfalso
    simp only [on_update_session, if_neg hterm, hbs] at hupd
    exact absurd hupd (by simp)
  | ok pr =>
    obtain ⟨s, row'⟩ := pr
    have hupd' := hupd
    simp only [on_update_session, if_neg hterm, hbs, Except.ok.injEq,
      Prod.mk.injEq] at hupd'
    obtain ⟨hsess, hrow⟩ := hupd'
    subst hsess
    refine ⟨{ id := row.id, buyer := mergedBuyer req row,
              status := updateStatus req row, currency := "usd",
              line_items := lis,
              fulfillment_address := mergedAddress req row,
              fulfillment_option_id := mergedOptionId req row,
              totals := [⟨.items_base_amount, "Item(s) total", sub⟩,
                         ⟨.subtotal, "Subtotal", sub⟩,
                         ⟨.tax, "Tax", ceilTax sub⟩,
                         ⟨.total, "Total", sub + ceilTax sub⟩] },
            row', rfl, hst, ?_, ?_⟩
    · intro t ht
      simp at ht
      rcases ht with h1 | h1 | h1 | h1 <;> subst h1 <;> simp
    · simp [List.getLast?]

/-- C10 witness: an update carrying an address and the unknown option id
`"warp_drive"` succeeds with status `READY_FOR_PAYMENT` and totals without
a fulfillment entry. -/
theorem unknown_option_still_ready_witness :
    buildLineItems [⟨"p1", 1000, true⟩]
        (mergedItems ⟨none, none, some "addr", some "warp_drive"⟩
          ⟨"cs_1", "not_ready_for_payment", none, [⟨"p1", 2⟩], none, none,
           ⟨"cs_1", none, CheckoutStatus.not_ready_for_payment, "usd", [],
            none, none, []⟩⟩)
      = .ok ([⟨"li_p1", "p1", 2, 2000, 0, 2000, 160, 2160⟩], 2000)
    ∧ (∃ s row',
        on_update_session [⟨"p1", 1000, true⟩]
          (some ⟨"cs_1", "not_ready_for_payment", none, [⟨"p1", 2⟩], none,
                 none,
                 ⟨"cs_1", none, CheckoutStatus.not_ready_for_payment, "usd",
                  [], none, none, []⟩⟩)
          ⟨none, none, some "addr", some "warp_drive"⟩ = .ok (s, row')
        ∧ s.status = CheckoutStatus.ready_for_payment
        ∧ (∀ t ∈ s.totals, t.type ≠ TotalType.fulfillment)
        ∧ s.totals.getLast? = some ⟨.total, "Total", 2000 + ceilTax 2000⟩) :=
  ⟨rfl,
   unknown_option_still_ready [⟨"p1", 1000, true⟩]
     ⟨"cs_1", "not_ready_for_payment", none, [⟨"p1", 2⟩], none, none,
      ⟨"cs_1", none, CheckoutStatus.not_ready_for_payment, "usd", [],
       none, none, []⟩⟩
     ⟨none, none, some "addr", some "warp_drive"⟩ "warp_drive"
     [⟨"li_p1", "p1", 2, 2000, 0, 2000, 160, 2160⟩] 2000
     (by decide) rfl rfl (by decide) (by decide) rfl⟩

end ACP
